import Mathlib

/-!
Verification development for the attendance synchronization system
(`src/config_manager.py`, `src/attendance_reader.py`, `src/main.py`).

The Python modules are shallowly embedded as executable Lean functions.
Timestamps are modelled as natural numbers (the code only compares them
with `<=`).  The persistence layer (`DataSync` / RecordStore) is an
external collaborator; its results (cursor reads, save results) appear as
environment parameters.  Exceptions raised by collaborators are modelled
with `Except String`; code that absorbs exceptions returns plain values.

The program installs a custom SIGINT handler (`signal.signal` in
`AttendanceSystem.__init__`), so `KeyboardInterrupt` is never raised inside
the pass; cooperative shutdown is modelled as an oracle `sd : Nat → Bool`
consulted once per flag read, in program order.
-/

set_option autoImplicit false

namespace Attendance

/-- `DeviceConfig` from `config_manager.py`: configuration of one terminal. -/
structure DeviceConfig where
  name : String
  ip : String
  port : Int
  device_id : String
  enabled : Bool
  username : String := ""
  password : String := ""
deriving Repr, DecidableEq

/-- A raw device entry as parsed from YAML: every key may be absent
(`device_data.get(key, default)` in `_load_config`). -/
structure RawDevice where
  name : Option String
  ip : Option String
  port : Option Int
  device_id : Option String
  enabled : Option Bool
  username : Option String
  password : Option String
deriving Repr, DecidableEq

/-- A raw configuration document: the `devices` key may be absent
(`config_data.get('devices', [])`).  Settings are irrelevant to validation
and omitted. -/
structure RawConfig where
  devices : Option (List RawDevice)
deriving Repr, DecidableEq

/-- Defaulting applied by `_load_config` when building a `DeviceConfig`
from one YAML entry. -/
def loadDevice (r : RawDevice) : DeviceConfig :=
  { name := r.name.getD ""
    ip := r.ip.getD ""
    port := r.port.getD 4370
    device_id := r.device_id.getD ""
    enabled := r.enabled.getD true
    username := r.username.getD ""
    password := r.password.getD "" }

/-- The per-device checks of `_validate_config` (raising = `.error`). -/
def validateDevice (d : DeviceConfig) : Except String Unit :=
  if d.name = "" then .error "Device name cannot be empty"
  else if d.ip = "" then .error "IP address cannot be empty"
  else if d.device_id = "" then .error "Device ID cannot be empty"
  else if d.port ≤ 0 ∨ d.port > 65535 then .error "Invalid port number"
  else .ok ()

/-- The validation loop of `_validate_config`: raise at the first invalid
device. -/
def validateDevices : List DeviceConfig → Except String Unit
  | [] => .ok ()
  | d :: rest =>
    match validateDevice d with
    | .ok _ => validateDevices rest
    | .error e => .error e

/-- `_validate_config`: empty device list is rejected first, then each
device is checked. -/
def validateConfig (devs : List DeviceConfig) : Except String Unit :=
  if devs.isEmpty then .error "No devices configured"
  else validateDevices devs

/-- The devices list built by `_load_config` before validation. -/
def rawDevices (c : RawConfig) : List DeviceConfig :=
  (c.devices.getD []).map loadDevice

/-- `_load_config` restricted to the parsed document: build the device
list with defaults, then validate; any raised error aborts loading. -/
def loadConfig (c : RawConfig) : Except String (List DeviceConfig) :=
  match validateConfig (rawDevices c) with
  | .ok _ => .ok (rawDevices c)
  | .error e => .error e

/-- Structural validity of one loaded device, as the specification states
it: nonempty name, ip and device id, and a port in `1..65535`. -/
def deviceValid (d : DeviceConfig) : Prop :=
  d.name ≠ "" ∧ d.ip ≠ "" ∧ d.device_id ≠ "" ∧ 1 ≤ d.port ∧ d.port ≤ 65535

instance (d : DeviceConfig) : Decidable (deviceValid d) := by
  unfold deviceValid; infer_instance

/-- One attendance event as stored on the terminal (what
`conn.get_attendance()` yields: `user_id`, `timestamp`, `punch`,
`status`). -/
structure RawAttendance where
  user_id : Nat
  timestamp : Nat
  punch : Nat
  status : Nat
deriving Repr, DecidableEq

/-- `AttendanceRecord` from `attendance_reader.py`. -/
structure AttendanceRecord where
  device_id : String
  device_name : String
  user_id : String
  user_name : String
  timestamp : Nat
  punch_type : Nat
  verify_type : Nat
  work_code : Nat
deriving Repr, DecidableEq

/-- The record built for one raw attendance entry in
`get_attendance_records` (user name from the users dictionary, with the
`User_<id>` fallback). -/
def mkRecord (dc : DeviceConfig) (users : List (Nat × String)) (a : RawAttendance) :
    AttendanceRecord :=
  { device_id := dc.device_id
    device_name := dc.name
    user_id := toString a.user_id
    user_name := ((users.lookup a.user_id).getD ("User_" ++ toString a.user_id))
    timestamp := a.timestamp
    punch_type := a.punch
    verify_type := a.status
    work_code := 0 }

/-- The skip test of the processing loop: `if last_sync_time and
attendance.timestamp <= last_sync_time: continue` — a record is kept iff
no cursor is set or its timestamp is strictly greater. -/
def keepRecord (lastSync : Option Nat) (a : RawAttendance) : Bool :=
  match lastSync with
  | none => true
  | some t => decide (t < a.timestamp)

/-- The `for i, attendance in enumerate(attendances)` loop of
`get_attendance_records`: filter by the cursor and build records. -/
def processAttendances (dc : DeviceConfig) (users : List (Nat × String))
    (lastSync : Option Nat) : List RawAttendance → List AttendanceRecord
  | [] => []
  | a :: rest =>
    if keepRecord lastSync a then
      mkRecord dc users a :: processAttendances dc users lastSync rest
    else
      processAttendances dc users lastSync rest

theorem processAttendances_timestamp_gt (dc : DeviceConfig)
    (users : List (Nat × String)) (t : Nat) (l : List RawAttendance) :
    ∀ r ∈ processAttendances dc users (some t) l, t < r.timestamp := by
  induction l with
  | nil => intro r hr; simp [processAttendances] at hr
  | cons a rest ih =>
    intro r hr
    by_cases hk : keepRecord (some t) a = true
    · simp [processAttendances, hk] at hr
      rcases hr with hr | hr
      · subst hr
        simpa [keepRecord] using hk
      · exact ih r hr
    · simp [processAttendances, hk] at hr
      exact ih r hr

/-! ### Connection cache (`AttendanceReader._connections`)

The cache maps device ids to live protocol connections; we track the set
of cached ids as a duplicate-free list.  Connection open/close actions are
recorded as trace events so that invariants over every intermediate state
of a pass can be stated. -/

/-- A connection-cache event: `connect_device` storing a connection, or
`disconnect_device` removing one. -/
inductive ConnEv where
  | connect (device_id : String)
  | disconnect (device_id : String)
deriving Repr, DecidableEq

/-- The device id an event refers to. -/
def ConnEv.devId : ConnEv → String
  | .connect i => i
  | .disconnect i => i

/-- Effect of one event on the cached-id set: storing under an existing
key keeps the set, `del` removes the key. -/
def applyEv (cache : List String) : ConnEv → List String
  | .connect i => if i ∈ cache then cache else i :: cache
  | .disconnect i => cache.erase i

/-- Replay a trace of events on a cache. -/
def runEvs (cache : List String) (evs : List ConnEv) : List String :=
  evs.foldl applyEv cache

/-- Largest number of simultaneously cached (open) connections reached
while replaying a trace, the initial state included. -/
def maxOpen (cache : List String) : List ConnEv → Nat
  | [] => cache.length
  | ev :: rest => max cache.length (maxOpen (applyEv cache ev) rest)

theorem runEvs_append (cache : List String) (t1 t2 : List ConnEv) :
    runEvs cache (t1 ++ t2) = runEvs (runEvs cache t1) t2 :=
  List.foldl_append applyEv cache t1 t2

theorem length_le_maxOpen (cache : List String) (t : List ConnEv) :
    cache.length ≤ maxOpen cache t := by
  cases t with
  | nil => simp [maxOpen]
  | cons ev rest => simp [maxOpen]

theorem maxOpen_append (cache : List String) (t1 t2 : List ConnEv) :
    maxOpen cache (t1 ++ t2) = max (maxOpen cache t1) (maxOpen (runEvs cache t1) t2) := by
  induction t1 generalizing cache with
  | nil =>
    simp only [List.nil_append, maxOpen, runEvs, List.foldl_nil]
    exact (Nat.max_eq_right (length_le_maxOpen cache t2)).symm
  | cons ev rest ih =>
    simp only [List.cons_append, maxOpen, runEvs, List.foldl_cons, List.append_eq]
    rw [ih (applyEv cache ev), Nat.max_assoc]
    rfl

/-- `disconnect_device` from `attendance_reader.py`.  `raises` tells
whether the cached connection's underlying `conn.disconnect()` call
raises.  On the exception path the handler logs, removes the cache entry
anyway, and returns `false`; the id is deleted from the cache on every
path and nothing propagates.  (Cached connections are always truthy: only
live connections are ever stored.) -/
def disconnect_device (raises : Bool) (cache : List String) (device_id : String) :
    Bool × List String :=
  if device_id ∈ cache then
    if raises then (false, cache.erase device_id)
    else (true, cache.erase device_id)
  else (true, cache)

/-- Behaviour of the external world for one device during one pass:
results of the collaborator calls the orchestrator and reader make.
`lastSyncResult` and `saveResult` come from `DataSync` (the RecordStore
collaborator, external per §6 of the design); `.error` models a raised
exception.  `procCount` is how many raw attendance entries the processing
loop handles before an exception stops it (`≥ deviceLog.length` when no
exception occurs; the partial record list is returned either way). -/
structure DeviceEnv where
  lastSyncResult : Except String (Option Nat)
  testConnectOk : Bool
  testOpsOk : Bool
  connectOk : Bool
  deviceLog : List RawAttendance
  users : List (Nat × String)
  procCount : Nat
  saveResult : Except String Nat
deriving Repr

/-- `test_connection` from `attendance_reader.py`: connect (caching the
connection on success), run the probe operations, and always disconnect in
the `finally` block.  Returns the success flag and the cache events.
`testConnectOk` is the `connect_device` outcome, `testOpsOk` whether the
probe operations (`get_time`/`get_users`/`get_attendance`) run without
raising. -/
def test_connection (connOk opsOk : Bool) (dc : DeviceConfig) :
    Bool × List ConnEv :=
  if connOk then
    (opsOk, [ConnEv.connect dc.device_id, ConnEv.disconnect dc.device_id])
  else
    (false, [ConnEv.disconnect dc.device_id])

/-- `get_attendance_records` from `attendance_reader.py`: reuse a cached
connection or connect (returning no records when the connect fails), fetch
the full log, and filter against `last_sync_time`.  Internal exceptions
are absorbed and yield the records collected so far (`env.procCount`); the
connection stays cached.  Returns the records and the cache events. -/
def get_attendance_records (env : DeviceEnv) (cache : List String)
    (dc : DeviceConfig) (lastSync : Option Nat) :
    List AttendanceRecord × List ConnEv :=
  if dc.device_id ∈ cache then
    (processAttendances dc env.users lastSync (env.deviceLog.take env.procCount), [])
  else if env.connectOk then
    (processAttendances dc env.users lastSync (env.deviceLog.take env.procCount),
     [ConnEv.connect dc.device_id])
  else
    ([], [])

/-- The list of events `get_attendance_records` retrieves from the device:
`conn.get_attendance()` takes no since-argument, so whenever a connection
is available the terminal returns its complete attendance log. -/
def get_attendance_requested (env : DeviceEnv) (cache : List String)
    (dc : DeviceConfig) : List RawAttendance :=
  if dc.device_id ∈ cache ∨ env.connectOk then env.deviceLog else []

/-! ### The synchronization pass (`AttendanceSystem.sync_all_devices`)

Shutdown-flag reads (`self._shutdown_requested or self._keyboard_interrupt`)
are modelled by an oracle `sd : Nat → Bool` consulted at increasing
indices, one per read, in program order.  The final flag read of the pass
(choosing between the "interrupted" and "completed" summary log lines)
has no effect on any modelled output and is omitted. -/

/-- One `save_records` invocation: which enabled device (0-based position
and id), the cursor read for it at the start of its processing, and the
records handed over. -/
structure SaveCall where
  idx : Nat
  device_id : String
  lastSync : Option Nat
  records : List AttendanceRecord
deriving Repr, DecidableEq

/-- Outcome of one device's loop iteration: next oracle index, whether the
device loop was broken out of, whether `successful_syncs` was incremented,
records added to `total_new_records`, the `failed_devices` entry if any,
the `save_records` call if any, and the connection-cache events. -/
structure DevOut where
  k : Nat
  brk : Bool
  succ : Bool
  newCount : Nat
  failEntry : Option (String × String)
  saved : Option SaveCall
  trace : List ConnEv
deriving Repr

/-- The interruptible inter-device sleep (`for _ in range(5)` with a flag
check before each 0.1 s step); returns the oracle index after the loop.  A
positive read only breaks the sleep loop, not the device loop. -/
def delayLoop (sd : Nat → Bool) (k : Nat) : Nat → Nat
  | 0 => k
  | n + 1 => if sd k then k + 1 else delayLoop sd (k + 1) n

/-- Lines 251–261: the flag check before the inter-device delay (a
positive read breaks the device loop) and, when the device is not the
last, the interruptible sleep. -/
def afterDevice (sd : Nat → Bool) (isLast : Bool) (k : Nat) (succ : Bool)
    (n : Nat) (fe : Option (String × String)) (sv : Option SaveCall)
    (tr : List ConnEv) : DevOut :=
  if sd k then ⟨k + 1, true, succ, n, fe, sv, tr⟩
  else if isLast then ⟨k + 1, false, succ, n, fe, sv, tr⟩
  else ⟨delayLoop sd (k + 1) 5, false, succ, n, fe, sv, tr⟩

/-- One iteration of the device loop of `sync_all_devices` (lines
152–261), for the device at position `idx` with incoming oracle index `k`
and connection cache `cache`:

* loop-top flag check (line 154), then the re-check inside `try`
  (line 167) — either being set breaks the loop;
* `get_device_last_sync_time` (DataSync): a raised exception goes to the
  `except` branch — failure entry recorded, `_cleanup_device_connection`
  still runs, then the post-device checks;
* `_ensure_clean_device_connection`: its own flag check, then
  `test_connection`; on a `False` result line 180 re-reads the flag and
  either breaks or `continue`s (skipping the delay);
* flag check before fetching (line 186), `get_attendance_records`, flag
  check before saving (line 193) — breaking here leaves the fetched
  connection cached;
* nonempty records are passed to `save_records` (a raised exception is the
  `except` branch, the call having received the records); empty records
  are a zero-count success; both paths run `_cleanup_device_connection`,
  whose cache effect is removal of the entry regardless of errors. -/
def syncDevice (sd : Nat → Bool) (env : DeviceEnv) (idx : Nat)
    (dc : DeviceConfig) (isLast : Bool) (k : Nat) (cache : List String) :
    DevOut :=
  if sd k then ⟨k + 1, true, false, 0, none, none, []⟩
  else if sd (k + 1) then ⟨k + 2, true, false, 0, none, none, []⟩
  else
    match env.lastSyncResult with
    | .error e =>
      afterDevice sd isLast (k + 2) false 0 (some (dc.name, e)) none
        [ConnEv.disconnect dc.device_id]
    | .ok lastSync =>
      if sd (k + 2) then
        if sd (k + 3) then ⟨k + 4, true, false, 0, none, none, []⟩
        else ⟨k + 4, false, false, 0, none, none, []⟩
      else
        if !(test_connection env.testConnectOk env.testOpsOk dc).1 then
          if sd (k + 3) then
            ⟨k + 4, true, false, 0, none, none,
             (test_connection env.testConnectOk env.testOpsOk dc).2⟩
          else
            ⟨k + 4, false, false, 0, none, none,
             (test_connection env.testConnectOk env.testOpsOk dc).2⟩
        else if sd (k + 3) then
          ⟨k + 4, true, false, 0, none, none,
           (test_connection env.testConnectOk env.testOpsOk dc).2⟩
        else
          if sd (k + 4) then
            ⟨k + 5, true, false, 0, none, none,
             (test_connection env.testConnectOk env.testOpsOk dc).2 ++
               (get_attendance_records env
                 (runEvs cache (test_connection env.testConnectOk env.testOpsOk dc).2)
                 dc lastSync).2⟩
          else if (get_attendance_records env
              (runEvs cache (test_connection env.testConnectOk env.testOpsOk dc).2)
              dc lastSync).1.isEmpty then
            afterDevice sd isLast (k + 5) true 0 none none
              ((test_connection env.testConnectOk env.testOpsOk dc).2 ++
               (get_attendance_records env
                 (runEvs cache (test_connection env.testConnectOk env.testOpsOk dc).2)
                 dc lastSync).2 ++ [ConnEv.disconnect dc.device_id])
          else
            match env.saveResult with
            | .ok n =>
              afterDevice sd isLast (k + 5) true n none
                (some ⟨idx, dc.device_id, lastSync,
                  (get_attendance_records env
                    (runEvs cache (test_connection env.testConnectOk env.testOpsOk dc).2)
                    dc lastSync).1⟩)
                ((test_connection env.testConnectOk env.testOpsOk dc).2 ++
                 (get_attendance_records env
                   (runEvs cache (test_connection env.testConnectOk env.testOpsOk dc).2)
                   dc lastSync).2 ++ [ConnEv.disconnect dc.device_id])
            | .error e =>
              afterDevice sd isLast (k + 5) false 0 (some (dc.name, e))
                (some ⟨idx, dc.device_id, lastSync,
                  (get_attendance_records env
                    (runEvs cache (test_connection env.testConnectOk env.testOpsOk dc).2)
                    dc lastSync).1⟩)
                ((test_connection env.testConnectOk env.testOpsOk dc).2 ++
                 (get_attendance_records env
                   (runEvs cache (test_connection env.testConnectOk env.testOpsOk dc).2)
                   dc lastSync).2 ++ [ConnEv.disconnect dc.device_id])

/-- Mutable state of the device loop. -/
structure LoopState where
  k : Nat
  cache : List String
  totalNew : Nat
  successes : Nat
  failed : List (String × String)
  saved : List SaveCall
  trace : List ConnEv
deriving Repr

/-- Fold one `DevOut` into the loop state. -/
def stepState (s : LoopState) (o : DevOut) : LoopState :=
  { k := o.k
    cache := runEvs s.cache o.trace
    totalNew := s.totalNew + o.newCount
    successes := s.successes + (if o.succ then 1 else 0)
    failed := s.failed ++ o.failEntry.toList
    saved := s.saved ++ o.saved.toList
    trace := s.trace ++ o.trace }

/-- The device loop: enabled devices in configuration order, 0-based
position `idx`; a `brk` outcome stops the loop. -/
def syncLoop (sd : Nat → Bool) (env : Nat → DeviceEnv) :
    List DeviceConfig → Nat → LoopState → LoopState
  | [], _, s => s
  | dc :: rest, idx, s =>
    if (syncDevice sd (env idx) idx dc rest.isEmpty s.k s.cache).brk then
      stepState s (syncDevice sd (env idx) idx dc rest.isEmpty s.k s.cache)
    else
      syncLoop sd env rest (idx + 1)
        (stepState s (syncDevice sd (env idx) idx dc rest.isEmpty s.k s.cache))

/-- Observable outcome of one full pass. -/
structure SyncResult where
  retVal : Bool
  successes : Nat
  totalNew : Nat
  failed : List (String × String)
  saved : List SaveCall
  trace : List ConnEv
  cleanupRan : Bool
deriving Repr

/-- Packaging of the final loop state (lines 263–291): the post-loop flag
read (line 264) decides whether `_perform_data_cleanup` runs, and the
return value is `successful_syncs > 0` (line 291). -/
def passResult (sd : Nat → Bool) (s : LoopState) : SyncResult :=
  ⟨decide (0 < s.successes), s.successes, s.totalNew, s.failed, s.saved,
   s.trace, !sd s.k⟩

/-- `sync_all_devices` (an initialized system assumed): the entry flag
check (line 135) returns `False` untouched; an empty enabled-device list
returns `True` before the loop and before any cleanup (line 142);
otherwise the device loop runs and the outcome is packaged by
`passResult`. -/
def sync_all_devices (sd : Nat → Bool) (env : Nat → DeviceEnv)
    (devices : List DeviceConfig) (cache0 : List String) : SyncResult :=
  if sd 0 then ⟨false, 0, 0, [], [], [], false⟩
  else if (devices.filter (fun d => d.enabled)).isEmpty then
    ⟨true, 0, 0, [], [], [], false⟩
  else
    passResult sd
      (syncLoop sd env (devices.filter (fun d => d.enabled)) 0
        ⟨1, cache0, 0, 0, [], [], []⟩)

/-! ### The shutdown signal handler (`AttendanceSystem._signal_handler`) -/

/-- The cancellation state the handler touches: the two flags, the SIGINT
counter (`None` models the attribute not yet existing — the `hasattr`
test), and `running`. -/
structure SignalState where
  shutdown_requested : Bool
  keyboard_interrupt : Bool
  signal_count : Option Nat
  running : Bool
deriving Repr, DecidableEq

/-- Externally visible actions the handler can take besides mutating the
cancellation state. -/
inductive HandlerEffect where
  | startForceTimer
  | readerDisconnectAll
  | sysExit (code : Nat)
deriving Repr, DecidableEq

/-- `_signal_handler` (lines 37–75).  For SIGINT: set
`_keyboard_interrupt`; a first signal records count 1, logs, starts the
3-second force-exit timer thread, then sets `_shutdown_requested` and
clears `running`; a repeated SIGINT (stored count ≥ 1) calls
`attendance_reader.disconnect_all()` and `sys.exit(1)` — the `sys.exit`
raises, so the trailing flag assignments never run.  For any other signal
only the flags are set.  Logging calls are omitted. -/
def signal_handler (isSigint : Bool) (s : SignalState) :
    SignalState × List HandlerEffect :=
  if isSigint then
    let s1 := { s with keyboard_interrupt := true }
    match s.signal_count with
    | some c =>
      if c + 1 = 1 then
        ({ s1 with signal_count := some (c + 1), shutdown_requested := true,
                   running := false }, [])
      else
        ({ s1 with signal_count := some (c + 1) },
         [HandlerEffect.readerDisconnectAll, HandlerEffect.sysExit 1])
    | none =>
      ({ s1 with signal_count := some 1, shutdown_requested := true,
                 running := false }, [HandlerEffect.startForceTimer])
  else
    ({ s with shutdown_requested := true, running := false }, [])

/-- The state of a freshly constructed `AttendanceSystem`. -/
def initialSignalState : SignalState :=
  { shutdown_requested := false, keyboard_interrupt := false,
    signal_count := none, running := false }

/-! ### CLI surface (`initialize` and `main`'s `--test` branch) -/

/-- `initialize`: configuration loading is the only step that can raise
(`AttendanceReader()`/`DataSync()` construction and
`_test_device_connections` absorb their errors), so initialization
succeeds exactly when `loadConfig` does. -/
def initSystem (raw : RawConfig) : Bool :=
  (loadConfig raw).toBool

/-- `_test_device_connections`: counts the devices whose
`test_connection` succeeded; the count is only logged, nothing is
returned. -/
def countSuccessfulTests (results : List Bool) : Nat :=
  results.count true

/-- `main`'s `--test` branch (lines 600–606): if `initialize()` succeeds,
run `_test_device_connections` and return 0; otherwise return 1.  The
per-device test outcomes are consumed only by the (discarded) success
count. -/
def mainTestMode (raw : RawConfig) (testResults : List Bool) : Nat :=
  if initSystem raw then
    let _ := countSuccessfulTests testResults
    0
  else 1

/-! ### Helper lemmas -/

@[simp]
theorem afterDevice_succ (sd : Nat → Bool) (isLast : Bool) (k : Nat)
    (succ : Bool) (n : Nat) (fe : Option (String × String))
    (sv : Option SaveCall) (tr : List ConnEv) :
    (afterDevice sd isLast k succ n fe sv tr).succ = succ := by
  unfold afterDevice; split_ifs <;> rfl

@[simp]
theorem afterDevice_newCount (sd : Nat → Bool) (isLast : Bool) (k : Nat)
    (succ : Bool) (n : Nat) (fe : Option (String × String))
    (sv : Option SaveCall) (tr : List ConnEv) :
    (afterDevice sd isLast k succ n fe sv tr).newCount = n := by
  unfold afterDevice; split_ifs <;> rfl

@[simp]
theorem afterDevice_failEntry (sd : Nat → Bool) (isLast : Bool) (k : Nat)
    (succ : Bool) (n : Nat) (fe : Option (String × String))
    (sv : Option SaveCall) (tr : List ConnEv) :
    (afterDevice sd isLast k succ n fe sv tr).failEntry = fe := by
  unfold afterDevice; split_ifs <;> rfl

@[simp]
theorem afterDevice_saved (sd : Nat → Bool) (isLast : Bool) (k : Nat)
    (succ : Bool) (n : Nat) (fe : Option (String × String))
    (sv : Option SaveCall) (tr : List ConnEv) :
    (afterDevice sd isLast k succ n fe sv tr).saved = sv := by
  unfold afterDevice; split_ifs <;> rfl

@[simp]
theorem afterDevice_trace (sd : Nat → Bool) (isLast : Bool) (k : Nat)
    (succ : Bool) (n : Nat) (fe : Option (String × String))
    (sv : Option SaveCall) (tr : List ConnEv) :
    (afterDevice sd isLast k succ n fe sv tr).trace = tr := by
  unfold afterDevice; split_ifs <;> rfl

@[simp]
theorem afterDevice_brk (sd : Nat → Bool) (isLast : Bool) (k : Nat)
    (succ : Bool) (n : Nat) (fe : Option (String × String))
    (sv : Option SaveCall) (tr : List ConnEv) :
    (afterDevice sd isLast k succ n fe sv tr).brk = sd k := by
  unfold afterDevice; split_ifs <;> simp_all

theorem test_connection_fst (connOk opsOk : Bool) (dc : DeviceConfig) :
    (test_connection connOk opsOk dc).1 = (connOk && opsOk) := by
  unfold test_connection; cases connOk <;> simp

/-- A shutdown oracle that never reports a pending shutdown. -/
def sdNever : Nat → Bool := fun _ => false

/-- Fixture devices for concrete runs. -/
def devA : DeviceConfig :=
  { name := "A", ip := "10.0.0.1", port := 4370, device_id := "A1", enabled := true }

def devB : DeviceConfig :=
  { name := "B", ip := "10.0.0.2", port := 4370, device_id := "B1", enabled := true }

def devC : DeviceConfig :=
  { name := "C", ip := "10.0.0.3", port := 4370, device_id := "C1", enabled := true }

def devDisabled : DeviceConfig :=
  { name := "D", ip := "10.0.0.4", port := 4370, device_id := "D1", enabled := false }

/-- A well-behaved device environment: cursor `5`, one log entry at
timestamp `10`, all collaborator calls succeed. -/
def envGood : DeviceEnv :=
  { lastSyncResult := .ok (some 5), testConnectOk := true, testOpsOk := true,
    connectOk := true, deviceLog := [⟨7, 10, 0, 1⟩], users := [(7, "Alice")],
    procCount := 1, saveResult := .ok 1 }

/-- Like `envGood` but the connection test fails. -/
def envTestFail : DeviceEnv :=
  { envGood with testConnectOk := false }

/-- A structurally valid raw device entry. -/
def rawDevA : RawDevice :=
  { name := some "A", ip := some "10.0.0.1", port := some 4370,
    device_id := some "A1", enabled := some true,
    username := none, password := none }

/-- A structurally valid one-device raw configuration. -/
def rawValid : RawConfig :=
  { devices := some [rawDevA] }

/-! ### C9: initialization fails exactly on structural invalidity -/

theorem validateDevice_ok_iff (d : DeviceConfig) :
    validateDevice d = Except.ok () ↔ deviceValid d := by
  unfold validateDevice deviceValid
  split_ifs with h1 h2 h3 h4 <;> simp_all <;> omega

theorem validateDevices_ok_iff (l : List DeviceConfig) :
    validateDevices l = Except.ok () ↔ ∀ d ∈ l, deviceValid d := by
  induction l with
  | nil => simp [validateDevices]
  | cons d rest ih =>
    cases h : validateDevice d with
    | ok u =>
      cases u
      simp [validateDevices, h, ih, (validateDevice_ok_iff d).mp h]
    | error e =>
      have hnd : ¬ deviceValid d := fun hv => by
        have := (validateDevice_ok_iff d).mpr hv; simp [h] at this
      simp [validateDevices, h, hnd]

/-- C9: `initialize()` fails (and therefore startup aborts with no device
contacted for sync) exactly when the loaded configuration is structurally
invalid: the devices list is missing or empty, or some loaded device has
an empty name, ip or device id, or a port outside `1..65535`;
configuration loading raises in precisely these cases. -/
theorem C9_theorem : ∀ c : RawConfig,
    (initSystem c = false ↔
      rawDevices c = [] ∨ ∃ d ∈ rawDevices c, ¬ deviceValid d)
    ∧ (rawDevices c = [] ↔ c.devices = none ∨ c.devices = some []) := by
  intro c
  constructor
  · unfold initSystem loadConfig validateConfig
    cases he : (rawDevices c).isEmpty with
    | true =>
      simp [he, List.isEmpty_iff.mp he, Except.toBool]
    | false =>
      have hne : rawDevices c ≠ [] := by
        intro h; rw [h] at he; simp at he
      cases hv : validateDevices (rawDevices c) with
      | ok u =>
        cases u
        have hall := (validateDevices_ok_iff (rawDevices c)).mp hv
        simp [he, hv, Except.toBool, hne]
        intro d hd
        exact hall d hd
      | error e =>
        have hnall : ¬ ∀ d ∈ rawDevices c, deviceValid d := fun hall => by
          have := (validateDevices_ok_iff (rawDevices c)).mpr hall
          simp [hv] at this
        simp [he, hv, Except.toBool, hne]
        push_neg at hnall
        exact hnall
  · unfold rawDevices
    cases hd : c.devices with
    | none => simp [hd]
    | some l => cases l <;> simp [hd]

/-! ### C10: `disconnect_device` never raises and always clears the
cache entry -/

/-- C10: for every duplicate-free cache state and every behaviour of the
underlying `conn.disconnect()` call, `disconnect_device` (a total
function: nothing propagates) leaves `device_id` absent from the cache,
and returns `false` exactly when a connection was cached and its
underlying disconnect raised. -/
theorem C10_theorem : ∀ (raises : Bool) (cache : List String) (device_id : String),
    cache.Nodup →
    device_id ∉ (disconnect_device raises cache device_id).2 ∧
    ((disconnect_device raises cache device_id).1 = false ↔
      device_id ∈ cache ∧ raises = true) := by
  intro raises cache device_id hnd
  unfold disconnect_device
  by_cases hm : device_id ∈ cache
  · cases raises <;>
      simp [hm, List.Nodup.not_mem_erase hnd]
  · simp [hm]

theorem C10_witness :
    ("A1" : String) ∉ (disconnect_device true ["A1", "B1"] "A1").2 ∧
    ((disconnect_device true ["A1", "B1"] "A1").1 = false ↔
      ("A1" : String) ∈ ["A1", "B1"] ∧ true = true) :=
  C10_theorem true ["A1", "B1"] "A1" (by decide)

/-! ### C7: the fetch is unrestricted; only strictly newer events are
forwarded -/

/-- C7 counterexample: with cursor `5` and a device log holding a single
event at timestamp `5`, the list retrieved from the device by
`get_attendance_records`' fetch call contains that event (timestamp `≤`
cursor) — the request is not restricted to strictly newer events — even
though the event is not returned (not re-submitted). -/
theorem C7_counterexample :
    (⟨1, 5, 0, 0⟩ : RawAttendance) ∈
      get_attendance_requested
        { lastSyncResult := .ok (some 5), testConnectOk := true,
          testOpsOk := true, connectOk := true, deviceLog := [⟨1, 5, 0, 0⟩],
          users := [], procCount := 1, saveResult := .ok 0 } [] devA ∧
    (⟨1, 5, 0, 0⟩ : RawAttendance).timestamp ≤ 5 ∧
    (get_attendance_records
        { lastSyncResult := .ok (some 5), testConnectOk := true,
          testOpsOk := true, connectOk := true, deviceLog := [⟨1, 5, 0, 0⟩],
          users := [], procCount := 1, saveResult := .ok 0 } [] devA
        (some 5)).1 = [] := by
  decide

/-- C7 (amended): the fetch call retrieves the device's complete log (or
nothing if no connection is available) — it is not restricted by the
cursor — but every record `get_attendance_records` returns (and hence
everything the orchestrator can re-submit) has timestamp strictly greater
than the cursor `t`. -/
theorem C7_theorem : ∀ (env : DeviceEnv) (cache : List String)
    (dc : DeviceConfig) (t : Nat),
    (get_attendance_requested env cache dc = env.deviceLog ∨
      get_attendance_requested env cache dc = []) ∧
    ∀ r ∈ (get_attendance_records env cache dc (some t)).1, t < r.timestamp := by
  intro env cache dc t
  constructor
  · unfold get_attendance_requested
    split
    · exact Or.inl rfl
    · exact Or.inr rfl
  · intro r hr
    unfold get_attendance_records at hr
    split at hr
    · exact processAttendances_timestamp_gt dc env.users t _ r hr
    · split at hr
      · exact processAttendances_timestamp_gt dc env.users t _ r hr
      · simp at hr

theorem C7_witness :
    5 < (mkRecord devA [(7, "Alice")] ⟨7, 10, 0, 1⟩).timestamp :=
  (C7_theorem envGood [] devA 5).2 (mkRecord devA [(7, "Alice")] ⟨7, 10, 0, 1⟩)
    (by decide)

/-! ### C8: test-mode exit code ignores the connection-test outcomes -/

/-- C8 counterexample: with a structurally valid configuration,
initialization succeeds, both device connection tests fail (zero
successes), and test mode still exits with code 0 — not 1 as claimed. -/
theorem C8_counterexample :
    mainTestMode rawValid [false, false] = 0 ∧
    countSuccessfulTests [false, false] = 0 := by
  decide

/-- C8 (amended): in test-connections mode the exit code is 0 exactly
when initialization (configuration loading) succeeds; the connection-test
outcomes are only counted for logging and do not influence the exit
code. -/
theorem C8_theorem : ∀ (raw : RawConfig) (r1 r2 : List Bool),
    (mainTestMode raw r1 = 0 ↔ (loadConfig raw).toBool = true) ∧
    mainTestMode raw r1 = mainTestMode raw r2 := by
  intro raw r1 r2
  unfold mainTestMode initSystem
  cases h : (loadConfig raw).toBool <;> simp [h]

/-! ### C6: the signal handler's effects -/

/-- C6 counterexample: a repeated SIGINT delivery (the second signal from
the initial state) makes the handler call
`attendance_reader.disconnect_all()` — a DeviceClient call — so the
handler's effects are not limited to mutating cancellation state for
every delivery. -/
theorem C6_counterexample :
    HandlerEffect.readerDisconnectAll ∈
      (signal_handler true (signal_handler true initialSignalState).1).2 := by
  decide

/-- C6 (amended): on a non-SIGINT signal or a first SIGINT the handler
only mutates cancellation state (a first SIGINT also starts the
force-exit timer thread); a DeviceClient call (`disconnect_all`) and the
forced exit happen exactly on a repeated SIGINT, i.e. when a SIGINT
arrives with a positive stored signal count.  RecordStore is never
called (no such effect exists). -/
theorem C6_theorem : ∀ (isSigint : Bool) (s : SignalState),
    ((signal_handler isSigint s).2 = [] ∨
      (signal_handler isSigint s).2 = [HandlerEffect.startForceTimer] ∨
      (signal_handler isSigint s).2 =
        [HandlerEffect.readerDisconnectAll, HandlerEffect.sysExit 1]) ∧
    (HandlerEffect.readerDisconnectAll ∈ (signal_handler isSigint s).2 ↔
      isSigint = true ∧ ∃ c, s.signal_count = some (c + 1)) := by
  intro isSigint s
  cases isSigint with
  | false => simp [signal_handler]
  | true =>
    cases hc : s.signal_count with
    | none => simp [signal_handler, hc]
    | some c =>
      cases c with
      | zero => simp [signal_handler, hc]
      | succ m => simp [signal_handler, hc]

/-! ### C2: cursor monotonicity of every `save_records` call -/

theorem get_attendance_records_fst (env : DeviceEnv) (cache : List String)
    (dc : DeviceConfig) (lastSync : Option Nat) :
    (get_attendance_records env cache dc lastSync).1 =
      processAttendances dc env.users lastSync (env.deviceLog.take env.procCount) ∨
    (get_attendance_records env cache dc lastSync).1 = [] := by
  unfold get_attendance_records
  split
  · exact Or.inl rfl
  · split
    · exact Or.inl rfl
    · exact Or.inr rfl

/-- Any `save_records` call a device iteration makes carries the cursor
read for that device and records filtered by `get_attendance_records`
against that cursor. -/
theorem syncDevice_saved_spec (sd : Nat → Bool) (env : DeviceEnv) (idx : Nat)
    (dc : DeviceConfig) (isLast : Bool) (k : Nat) (cache : List String)
    (c : SaveCall)
    (h : (syncDevice sd env idx dc isLast k cache).saved = some c) :
    ∃ l, env.lastSyncResult = Except.ok l ∧ c.lastSync = l ∧
      (c.records =
        processAttendances dc env.users l (env.deviceLog.take env.procCount)) := by
  unfold syncDevice at h
  split at h
  · simp at h
  split at h
  · simp at h
  split at h
  · simp at h
  rename_i lastSync heq
  split at h
  · split at h <;> simp at h
  split at h
  · split at h <;> simp at h
  split at h
  · simp at h
  split at h
  · simp at h
  split at h
  · simp at h
  rename_i hne
  rcases get_attendance_records_fst env
      (runEvs cache (test_connection env.testConnectOk env.testOpsOk dc).2) dc
      lastSync with hfst | hfst
  · split at h <;>
    · simp at h
      refine ⟨lastSync, heq, ?_, ?_⟩ <;> simp [← h, hfst]
  · rw [hfst] at hne
    simp at hne

theorem syncDevice_savedOk (sd : Nat → Bool) (env : DeviceEnv) (idx : Nat)
    (dc : DeviceConfig) (isLast : Bool) (k : Nat) (cache : List String)
    (c : SaveCall)
    (h : (syncDevice sd env idx dc isLast k cache).saved = some c) :
    ∀ t, c.lastSync = some t → ∀ r ∈ c.records, t < r.timestamp := by
  obtain ⟨l, _, hcl, hcr⟩ := syncDevice_saved_spec sd env idx dc isLast k cache c h
  intro t ht r hr
  rw [hcr, hcl.symm.trans ht] at hr
  exact processAttendances_timestamp_gt dc env.users t _ r hr

theorem syncLoop_savedOk (sd : Nat → Bool) (env : Nat → DeviceEnv) :
    ∀ (devs : List DeviceConfig) (idx : Nat) (s : LoopState),
    (∀ c ∈ s.saved, ∀ t, c.lastSync = some t → ∀ r ∈ c.records, t < r.timestamp) →
    ∀ c ∈ (syncLoop sd env devs idx s).saved,
      ∀ t, c.lastSync = some t → ∀ r ∈ c.records, t < r.timestamp := by
  intro devs
  induction devs with
  | nil => intro idx s hs; simpa [syncLoop] using hs
  | cons dc rest ih =>
    intro idx s hs
    have hstep : ∀ c ∈ (stepState s
        (syncDevice sd (env idx) idx dc rest.isEmpty s.k s.cache)).saved,
        ∀ t, c.lastSync = some t → ∀ r ∈ c.records, t < r.timestamp := by
      intro c hc
      simp only [stepState, List.mem_append] at hc
      rcases hc with hc | hc
      · exact hs c hc
      · cases ho : (syncDevice sd (env idx) idx dc rest.isEmpty s.k s.cache).saved with
        | none => rw [ho] at hc; simp at hc
        | some c' =>
          rw [ho] at hc; simp at hc
          subst hc
          exact syncDevice_savedOk sd (env idx) idx dc rest.isEmpty s.k s.cache c ho
    unfold syncLoop
    split
    · exact hstep
    · exact ih (idx + 1) _ hstep

/-- C2: every event the orchestrator passes to `save_records` during a
pass has a timestamp strictly greater than the cursor value read for that
device at the start of the pass, whenever that cursor is not `None`. -/
theorem C2_theorem : ∀ (sd : Nat → Bool) (env : Nat → DeviceEnv)
    (devices : List DeviceConfig) (cache0 : List String) (c : SaveCall),
    c ∈ (sync_all_devices sd env devices cache0).saved →
    ∀ t, c.lastSync = some t → ∀ r ∈ c.records, t < r.timestamp := by
  intro sd env devices cache0 c hc
  unfold sync_all_devices at hc
  split at hc
  · simp at hc
  · split at hc
    · simp at hc
    · unfold passResult at hc
      exact syncLoop_savedOk sd env _ 0 _ (by simp) c hc

theorem C2_witness :
    5 < (mkRecord devA [(7, "Alice")] ⟨7, 10, 0, 1⟩).timestamp :=
  C2_theorem sdNever (fun _ => envGood) [devA] []
    ⟨0, "A1", some 5, [mkRecord devA [(7, "Alice")] ⟨7, 10, 0, 1⟩]⟩
    (by decide) 5 rfl (mkRecord devA [(7, "Alice")] ⟨7, 10, 0, 1⟩) (by decide)

/-! ### C5: connection exclusivity -/

/-- Traces `test_connection` can produce replay to an empty cache. -/
theorem runEvs_tc (b o : Bool) (dc : DeviceConfig) :
    runEvs [] (test_connection b o dc).2 = [] := by
  cases b <;> simp [test_connection, runEvs, applyEv]

theorem maxOpen_tc (b o : Bool) (dc : DeviceConfig) :
    maxOpen [] (test_connection b o dc).2 ≤ 1 := by
  cases b <;> simp [test_connection, maxOpen, applyEv]

theorem fetch_trace (env : DeviceEnv) (cache : List String)
    (dc : DeviceConfig) (l : Option Nat) :
    (get_attendance_records env cache dc l).2 = [] ∨
    (get_attendance_records env cache dc l).2 = [ConnEv.connect dc.device_id] := by
  unfold get_attendance_records
  split
  · exact Or.inl rfl
  split
  · exact Or.inr rfl
  · exact Or.inl rfl

theorem maxOpen_fetch (env : DeviceEnv) (cache : List String)
    (dc : DeviceConfig) (l : Option Nat) :
    maxOpen [] (get_attendance_records env cache dc l).2 ≤ 1 := by
  rcases fetch_trace env cache dc l with h | h <;>
    simp [h, maxOpen, applyEv]

theorem runEvs_fetch (env : DeviceEnv) (cache : List String)
    (dc : DeviceConfig) (l : Option Nat) :
    runEvs [] (get_attendance_records env cache dc l).2 = [] ∨
    runEvs [] (get_attendance_records env cache dc l).2 = [dc.device_id] := by
  rcases fetch_trace env cache dc l with h | h
  · rw [h]; exact Or.inl rfl
  · rw [h]; right; simp [runEvs, applyEv]

/-- The trace of the fetch-then-break path. -/
theorem maxOpen_tc_fetch (b o : Bool) (env : DeviceEnv) (cache : List String)
    (dc : DeviceConfig) (l : Option Nat) :
    maxOpen [] ((test_connection b o dc).2 ++
      (get_attendance_records env cache dc l).2) ≤ 1 := by
  rw [maxOpen_append, runEvs_tc]
  exact max_le (maxOpen_tc b o dc) (maxOpen_fetch env cache dc l)

/-- The trace of a completed device body. -/
theorem maxOpen_tc_fetch_disc (b o : Bool) (env : DeviceEnv) (cache : List String)
    (dc : DeviceConfig) (l : Option Nat) :
    maxOpen [] ((test_connection b o dc).2 ++
      (get_attendance_records env cache dc l).2 ++
      [ConnEv.disconnect dc.device_id]) ≤ 1 := by
  rw [maxOpen_append, maxOpen_append, runEvs_tc]
  refine max_le (max_le (maxOpen_tc b o dc) (maxOpen_fetch env cache dc l)) ?_
  rw [runEvs_append, runEvs_tc]
  rcases runEvs_fetch env cache dc l with h | h <;>
    rw [h] <;> simp [maxOpen, applyEv]

theorem runEvs_tc_fetch_disc (b o : Bool) (env : DeviceEnv) (cache : List String)
    (dc : DeviceConfig) (l : Option Nat) :
    runEvs [] ((test_connection b o dc).2 ++
      (get_attendance_records env cache dc l).2 ++
      [ConnEv.disconnect dc.device_id]) = [] := by
  rw [runEvs_append, runEvs_append, runEvs_tc]
  rcases runEvs_fetch env cache dc l with h | h <;>
    rw [h] <;> simp [runEvs, applyEv]

/-- From an empty connection cache, one device iteration never has more
than one connection cached at any instant, and if the iteration did not
break the loop every connection it opened is closed again (the cache is
empty for the next device). -/
theorem syncDevice_trace_bound (sd : Nat → Bool) (env : DeviceEnv) (idx : Nat)
    (dc : DeviceConfig) (isLast : Bool) (k : Nat) :
    maxOpen [] (syncDevice sd env idx dc isLast k []).trace ≤ 1 ∧
    ((syncDevice sd env idx dc isLast k []).brk = false →
      runEvs [] (syncDevice sd env idx dc isLast k []).trace = []) := by
  rcases hE : syncDevice sd env idx dc isLast k [] with ⟨k2, brk, succ, nc, fe, sv, tr⟩
  unfold syncDevice at hE
  split at hE
  · cases hE; simp [maxOpen, runEvs]
  split at hE
  · cases hE; simp [maxOpen, runEvs]
  split at hE
  · -- cursor read raised: trace [disconnect]
    have ht := congrArg DevOut.trace hE
    simp only [afterDevice_trace] at ht
    subst ht
    simp [maxOpen, runEvs, applyEv]
  · split at hE
    · split at hE <;>
      · cases hE; simp [maxOpen, runEvs]
    split at hE
    · split at hE <;>
      · cases hE
        constructor
        · exact maxOpen_tc env.testConnectOk env.testOpsOk dc
        · intro _; exact runEvs_tc env.testConnectOk env.testOpsOk dc
    split at hE
    · cases hE
      constructor
      · exact maxOpen_tc env.testConnectOk env.testOpsOk dc
      · intro h; cases h
    split at hE
    · cases hE
      constructor
      · exact maxOpen_tc_fetch env.testConnectOk env.testOpsOk env _ dc _
      · intro h; cases h
    split at hE
    · have ht := congrArg DevOut.trace hE
      simp only [afterDevice_trace] at ht
      subst ht
      constructor
      · exact maxOpen_tc_fetch_disc env.testConnectOk env.testOpsOk env _ dc _
      · intro _; exact runEvs_tc_fetch_disc env.testConnectOk env.testOpsOk env _ dc _
    · split at hE <;>
      · have ht := congrArg DevOut.trace hE
        simp only [afterDevice_trace] at ht
        subst ht
        constructor
        · exact maxOpen_tc_fetch_disc env.testConnectOk env.testOpsOk env _ dc _
        · intro _; exact runEvs_tc_fetch_disc env.testConnectOk env.testOpsOk env _ dc _

theorem syncLoop_trace_bound (sd : Nat → Bool) (env : Nat → DeviceEnv) :
    ∀ (devs : List DeviceConfig) (idx : Nat) (s : LoopState),
    runEvs [] s.trace = [] → maxOpen [] s.trace ≤ 1 → s.cache = [] →
    maxOpen [] (syncLoop sd env devs idx s).trace ≤ 1 := by
  intro devs
  induction devs with
  | nil => intro idx s _ h2 _; simpa [syncLoop] using h2
  | cons dc rest ih =>
    intro idx s h1 h2 h3
    obtain ⟨hb, hrun⟩ := syncDevice_trace_bound sd (env idx) idx dc rest.isEmpty s.k
    have happ : maxOpen []
        (s.trace ++ (syncDevice sd (env idx) idx dc rest.isEmpty s.k []).trace) ≤ 1 := by
      rw [maxOpen_append, h1]
      exact max_le h2 hb
    unfold syncLoop
    rw [h3]
    split
    · simpa [stepState] using happ
    · rename_i hnb
      refine ih (idx + 1) _ ?_ ?_ ?_
      · simp only [stepState]
        rw [runEvs_append, h1]
        exact hrun (by simpa using hnb)
      · simpa [stepState] using happ
      · simp only [stepState]
        rw [h3]
        exact hrun (by simpa using hnb)

/-- C5: during a pass that starts with an empty connection cache, at most
one device connection is ever cached (open) at any instant: on every path
through a device's processing the current device's connection is closed
before the next device's is opened. -/
theorem C5_theorem : ∀ (sd : Nat → Bool) (env : Nat → DeviceEnv)
    (devices : List DeviceConfig),
    maxOpen [] (sync_all_devices sd env devices []).trace ≤ 1 := by
  intro sd env devices
  unfold sync_all_devices
  split
  · simp [maxOpen]
  split
  · simp [maxOpen]
  · unfold passResult
    exact syncLoop_trace_bound sd env _ 0 _ (by simp [runEvs]) (by simp [maxOpen]) rfl

/-- C1 counterexample: an initialized system whose single configured
device is disabled — the enabled-device list is empty, no device is
synced, and `sync_all_devices` still returns `True` (line 142), so the
claimed iff fails. -/
theorem C1_counterexample :
    (sync_all_devices sdNever (fun _ => envGood) [devDisabled] []).retVal = true ∧
    (sync_all_devices sdNever (fun _ => envGood) [devDisabled] []).successes = 0 := by
  decide

/-- C1 (amended): `sync_all_devices` returns `True` iff at least one
device synced successfully, or the pass was vacuous — no shutdown pending
at entry and the enabled-device list empty — in which case it returns
`True` with zero devices synced. -/
theorem C1_theorem : ∀ (sd : Nat → Bool) (env : Nat → DeviceEnv)
    (devices : List DeviceConfig) (cache0 : List String),
    ((sync_all_devices sd env devices cache0).retVal = true ↔
      0 < (sync_all_devices sd env devices cache0).successes ∨
        (sd 0 = false ∧ (devices.filter (fun d => d.enabled)).isEmpty = true)) := by
  intro sd env devices cache0
  unfold sync_all_devices
  cases h0 : sd 0 with
  | true => simp
  | false =>
    cases he : (devices.filter (fun d => d.enabled)).isEmpty with
    | true => simp [he]
    | false => simp [he, passResult]


/-! ### Characterizations of one device iteration under specific
shutdown oracles (used for the failure-isolation and cancellation
scenarios). -/

theorem delayLoop_sdNever (n k : Nat) : delayLoop sdNever k n = k + n := by
  induction n generalizing k with
  | zero => rfl
  | succ m ih =>
    simp only [delayLoop, sdNever, Bool.false_eq_true, if_false, ih]
    omega

theorem afterDevice_sdNever (isLast : Bool) (k : Nat) (succ : Bool) (n : Nat)
    (fe : Option (String × String)) (sv : Option SaveCall) (tr : List ConnEv) :
    afterDevice sdNever isLast k succ n fe sv tr =
      ⟨if isLast then k + 1 else k + 6, false, succ, n, fe, sv, tr⟩ := by
  unfold afterDevice
  cases isLast <;> simp [sdNever, delayLoop_sdNever]

theorem afterDevice_stop (sd : Nat → Bool) (isLast : Bool) (k : Nat)
    (succ : Bool) (n : Nat) (fe : Option (String × String))
    (sv : Option SaveCall) (tr : List ConnEv) (h : sd k = true) :
    afterDevice sd isLast k succ n fe sv tr = ⟨k + 1, true, succ, n, fe, sv, tr⟩ := by
  unfold afterDevice
  simp [h]

/-- A device iteration in which no shutdown is observed and every
collaborator call succeeds: the device is counted as a success (with or
without new records), no failure entry is recorded, and the connection is
opened and closed twice (test, then fetch). -/
theorem syncDevice_good_run (sd : Nat → Bool) (env : DeviceEnv) (idx : Nat)
    (dc : DeviceConfig) (isLast : Bool) (k : Nat) (l : Option Nat) (n : Nat)
    (h0 : sd k = false) (h1 : sd (k + 1) = false) (h2 : sd (k + 2) = false)
    (h3 : sd (k + 3) = false) (h4 : sd (k + 4) = false)
    (hl : env.lastSyncResult = Except.ok l) (htc : env.testConnectOk = true)
    (hto : env.testOpsOk = true) (hco : env.connectOk = true)
    (hsv : env.saveResult = Except.ok n) :
    syncDevice sd env idx dc isLast k [] =
      afterDevice sd isLast (k + 5) true
        (if (processAttendances dc env.users l (env.deviceLog.take env.procCount)).isEmpty
          then 0 else n)
        none
        (if (processAttendances dc env.users l (env.deviceLog.take env.procCount)).isEmpty
          then none
          else some ⟨idx, dc.device_id, l,
            processAttendances dc env.users l (env.deviceLog.take env.procCount)⟩)
        [ConnEv.connect dc.device_id, ConnEv.disconnect dc.device_id,
         ConnEv.connect dc.device_id, ConnEv.disconnect dc.device_id] := by
  unfold syncDevice
  rw [hl]
  simp only [h0, h1, h2, h3, h4, htc, hto, hco, hsv, test_connection,
    get_attendance_records, runEvs, List.foldl, applyEv, List.not_mem_nil,
    Bool.false_eq_true, if_false, if_true, Bool.not_true, List.erase_cons_head]
  by_cases hre : (processAttendances dc env.users l
      (env.deviceLog.take env.procCount)).isEmpty <;>
    simp [hre]

/-- A device iteration whose connection test fails with no shutdown
observed: the device is skipped — not counted as a success, and no
failure entry is recorded — and the loop continues. -/
theorem syncDevice_testfail_run (sd : Nat → Bool) (env : DeviceEnv) (idx : Nat)
    (dc : DeviceConfig) (isLast : Bool) (k : Nat) (cache : List String)
    (l : Option Nat)
    (h0 : sd k = false) (h1 : sd (k + 1) = false) (h2 : sd (k + 2) = false)
    (h3 : sd (k + 3) = false)
    (hl : env.lastSyncResult = Except.ok l)
    (hb : (env.testConnectOk && env.testOpsOk) = false) :
    syncDevice sd env idx dc isLast k cache =
      ⟨k + 4, false, false, 0, none, none,
       (test_connection env.testConnectOk env.testOpsOk dc).2⟩ := by
  unfold syncDevice
  rw [hl]
  have hfst : (test_connection env.testConnectOk env.testOpsOk dc).1 = false := by
    rw [test_connection_fst]; exact hb
  simp only [h0, h1, h2, h3, hfst, Bool.false_eq_true, if_false, if_true,
    Bool.not_false]


theorem syncLoop_nil (sd : Nat → Bool) (env : Nat → DeviceEnv) (idx : Nat)
    (s : LoopState) : syncLoop sd env [] idx s = s := rfl

theorem syncLoop_cons (sd : Nat → Bool) (env : Nat → DeviceEnv)
    (dc : DeviceConfig) (rest : List DeviceConfig) (idx : Nat) (s : LoopState) :
    syncLoop sd env (dc :: rest) idx s =
      if (syncDevice sd (env idx) idx dc rest.isEmpty s.k s.cache).brk then
        stepState s (syncDevice sd (env idx) idx dc rest.isEmpty s.k s.cache)
      else
        syncLoop sd env rest (idx + 1)
          (stepState s (syncDevice sd (env idx) idx dc rest.isEmpty s.k s.cache)) := rfl

/-- C3 (amended): with enabled devices `[A, B, C]` where B's connection
test fails and A and C process normally (no shutdown), the pass still
attempts C (C's connection is opened), A and C are counted as succeeded
(2 successes) — but no failure entry is recorded for B: the aggregated
failure list is empty, because a failed connection test skips the device
without recording a failure outcome. -/
theorem C3_theorem (dA dB dC : DeviceConfig) (env : Nat → DeviceEnv)
    (l0 l1 l2 : Option Nat) (n0 n2 : Nat)
    (hA : dA.enabled = true) (hB : dB.enabled = true) (hC : dC.enabled = true)
    (hl0 : (env 0).lastSyncResult = Except.ok l0)
    (ht0 : (env 0).testConnectOk = true) (ho0 : (env 0).testOpsOk = true)
    (hc0 : (env 0).connectOk = true) (hs0 : (env 0).saveResult = Except.ok n0)
    (hl1 : (env 1).lastSyncResult = Except.ok l1)
    (hb1 : ((env 1).testConnectOk && (env 1).testOpsOk) = false)
    (hl2 : (env 2).lastSyncResult = Except.ok l2)
    (ht2 : (env 2).testConnectOk = true) (ho2 : (env 2).testOpsOk = true)
    (hc2 : (env 2).connectOk = true) (hs2 : (env 2).saveResult = Except.ok n2) :
    (sync_all_devices sdNever env [dA, dB, dC] []).successes = 2 ∧
    (sync_all_devices sdNever env [dA, dB, dC] []).failed = [] ∧
    ConnEv.connect dC.device_id ∈
      (sync_all_devices sdNever env [dA, dB, dC] []).trace := by
  have e1 := syncDevice_good_run sdNever (env 0) 0 dA false 1 l0 n0
    rfl rfl rfl rfl rfl hl0 ht0 ho0 hc0 hs0
  rw [afterDevice_sdNever] at e1
  norm_num at e1
  have e2 := syncDevice_testfail_run sdNever (env 1) 1 dB false 12 [] l1
    rfl rfl rfl rfl hl1 hb1
  norm_num at e2
  have e3 := syncDevice_good_run sdNever (env 2) 2 dC true 16 l2 n2
    rfl rfl rfl rfl rfl hl2 ht2 ho2 hc2 hs2
  rw [afterDevice_sdNever] at e3
  norm_num at e3
  have hfilter : List.filter (fun d => d.enabled) [dA, dB, dC] = [dA, dB, dC] := by
    simp [List.filter_cons, hA, hB, hC]
  unfold sync_all_devices
  rw [hfilter]
  norm_num [sdNever]
  rw [syncLoop_cons]
  norm_num
  rw [e1]
  norm_num [stepState, runEvs, applyEv]
  rw [syncLoop_cons]
  norm_num
  rw [e2]
  norm_num [stepState, runEvs_tc]
  rw [syncLoop_cons]
  norm_num
  rw [e3]
  rw [syncLoop_nil]
  norm_num [stepState, passResult]


theorem afterDevice_sd6 (isLast : Bool) (succ : Bool) (n : Nat)
    (fe : Option (String × String)) (sv : Option SaveCall) (tr : List ConnEv) :
    afterDevice (fun j => decide (6 ≤ j)) isLast 6 succ n fe sv tr =
      ⟨7, true, succ, n, fe, sv, tr⟩ :=
  afterDevice_stop _ _ _ _ _ _ _ _ rfl

/-- C4: with three enabled devices and a shutdown observed first at the
check that follows device 1's processing (oracle true from the 7th flag
read on), the pass processes exactly device 1 (one success, its
connection events only, saves only for position 0), records no failures
for the skipped devices 2 and 3, and retention cleanup is not invoked. -/
theorem C4_theorem (d1 d2 d3 : DeviceConfig) (env : Nat → DeviceEnv)
    (l1 : Option Nat) (n1 : Nat)
    (h1e : d1.enabled = true) (h2e : d2.enabled = true) (h3e : d3.enabled = true)
    (hl : (env 0).lastSyncResult = Except.ok l1)
    (ht : (env 0).testConnectOk = true) (ho : (env 0).testOpsOk = true)
    (hc : (env 0).connectOk = true) (hs : (env 0).saveResult = Except.ok n1) :
    (sync_all_devices (fun j => decide (6 ≤ j)) env [d1, d2, d3] []).successes = 1 ∧
    (sync_all_devices (fun j => decide (6 ≤ j)) env [d1, d2, d3] []).failed = [] ∧
    (sync_all_devices (fun j => decide (6 ≤ j)) env [d1, d2, d3] []).cleanupRan = false ∧
    (∀ ev ∈ (sync_all_devices (fun j => decide (6 ≤ j)) env [d1, d2, d3] []).trace,
      ev.devId = d1.device_id) ∧
    (∀ c ∈ (sync_all_devices (fun j => decide (6 ≤ j)) env [d1, d2, d3] []).saved,
      c.idx = 0 ∧ c.device_id = d1.device_id) := by
  have e1 := syncDevice_good_run (fun j => decide (6 ≤ j)) (env 0) 0 d1 false 1 l1 n1
    rfl rfl rfl rfl rfl hl ht ho hc hs
  rw [afterDevice_sd6] at e1
  have hfilter : List.filter (fun d => d.enabled) [d1, d2, d3] = [d1, d2, d3] := by
    simp [List.filter_cons, h1e, h2e, h3e]
  unfold sync_all_devices
  rw [hfilter]
  norm_num
  rw [syncLoop_cons]
  norm_num
  rw [e1]
  norm_num [stepState, passResult, ConnEv.devId]


/-- C3 counterexample: in a concrete pass over `[A, B, C]` where B's
connection test fails and A and C succeed, the aggregated failure list
is empty — it does not contain a failure entry for B, contradicting
"exactly one failure entry (for B)". -/
theorem C3_counterexample :
    (sync_all_devices sdNever (fun i => if i = 1 then envTestFail else envGood)
      [devA, devB, devC] []).failed = [] ∧
    (sync_all_devices sdNever (fun i => if i = 1 then envTestFail else envGood)
      [devA, devB, devC] []).successes = 2 := by
  decide

theorem C3_witness :
    (sync_all_devices sdNever (fun i => if i = 1 then envTestFail else envGood)
      [devA, devB, devC] []).successes = 2 ∧
    (sync_all_devices sdNever (fun i => if i = 1 then envTestFail else envGood)
      [devA, devB, devC] []).failed = [] ∧
    ConnEv.connect devC.device_id ∈
      (sync_all_devices sdNever (fun i => if i = 1 then envTestFail else envGood)
        [devA, devB, devC] []).trace :=
  C3_theorem devA devB devC (fun i => if i = 1 then envTestFail else envGood)
    (some 5) (some 5) (some 5) 1 1
    rfl rfl rfl rfl rfl rfl rfl rfl rfl rfl rfl rfl rfl rfl rfl

theorem C4_witness :
    (sync_all_devices (fun j => decide (6 ≤ j)) (fun _ => envGood)
      [devA, devB, devC] []).successes = 1 ∧
    (sync_all_devices (fun j => decide (6 ≤ j)) (fun _ => envGood)
      [devA, devB, devC] []).failed = [] ∧
    (sync_all_devices (fun j => decide (6 ≤ j)) (fun _ => envGood)
      [devA, devB, devC] []).cleanupRan = false ∧
    (∀ ev ∈ (sync_all_devices (fun j => decide (6 ≤ j)) (fun _ => envGood)
      [devA, devB, devC] []).trace, ev.devId = devA.device_id) ∧
    (∀ c ∈ (sync_all_devices (fun j => decide (6 ≤ j)) (fun _ => envGood)
      [devA, devB, devC] []).saved, c.idx = 0 ∧ c.device_id = devA.device_id) :=
  C4_theorem devA devB devC (fun _ => envGood) (some 5) 1
    rfl rfl rfl rfl rfl rfl rfl rfl

end Attendance
